import Mathlib

/-!
Verification of the Spring-bean navigation / Lombok injection core of the
happy-java extension, as a shallow embedding in Lean 4.

Sources embedded (TypeScript):
* `spring-bean-navigation/models/types.ts` — enumerations and `getMatchScore`
* `spring-bean-navigation/models/BeanCandidate.ts` — `sortByScore`
* `spring-bean-navigation/models/BeanInjectionPoint.ts` — `getEffectiveIdentifier`
* `resolver/qualifierMatcher.ts` — `getEffectiveQualifier`
* `indexer/.../lombokAnnotationDetector.ts` — `detectConstructorInjection`
* `indexer/.../lombokInjectionExtractor.ts` — `extractFieldInfo`, `filterFields`,
  `convertToInjectionPoints`
* `indexer/beanMetadataExtractor.ts` — `createBeanDefinition`, `extractFromFile`
* `indexer/beanIndexer.ts` — `updateFile`, `buildFullIndex`

Components whose implementation files are not part of the source snapshot
(`models/BeanIndex.ts`, `models/BeanDefinition.ts` statics,
`indexer/annotationScanner.ts`, `resolver/beanResolver.ts`) are modelled from
the specification; their doc comments say so explicitly.

JavaScript semantics captured by the embedding: `Map.get` is association-list
lookup, `?.` chains are `Option.bind`, truthiness of strings treats `""` like
`undefined`, numbers are `Nat` (all values are small non-negative counts), and
`Array.prototype.sort` with a consistent comparator is a stable sort.
-/

/-- A source location (`BeanLocation`, models/BeanLocation.ts). The VS Code
`Uri` is represented by its `fsPath` string. -/
structure BeanLocation where
  uri : String
  line : Nat
  column : Nat
  deriving Repr, DecidableEq

/-- `BeanDefinitionType` enumeration (models/types.ts). -/
inductive BeanDefinitionType where
  | COMPONENT
  | BEAN_METHOD
  | CONFIGURATION
  deriving Repr, DecidableEq

/-- `InjectionType` enumeration (models/types.ts). -/
inductive InjectionType where
  | FIELD
  | CONSTRUCTOR
  | SETTER_METHOD
  | LOMBOK_CONSTRUCTOR
  deriving Repr, DecidableEq

/-- `MatchReason` enumeration (models/types.ts). -/
inductive MatchReason where
  | EXACT_QUALIFIER
  | EXACT_NAME
  | PRIMARY_BEAN
  | TYPE_MATCH
  | SUBTYPE_MATCH
  deriving Repr, DecidableEq

/-- `getMatchScore` (models/types.ts, lines 52–67). -/
def getMatchScore : MatchReason → Nat
  | .EXACT_QUALIFIER => 100
  | .EXACT_NAME => 90
  | .PRIMARY_BEAN => 80
  | .TYPE_MATCH => 70
  | .SUBTYPE_MATCH => 60

/-- `LombokConstructorType` enumeration (models/types.ts). -/
inductive LombokConstructorType where
  | REQUIRED_ARGS
  | ALL_ARGS
  deriving Repr, DecidableEq

/-- `OnConstructorSyntax` enumeration (models/types.ts). -/
inductive OnConstructorSyntax where
  | JAVA7
  | JAVA8_UNDERSCORE
  | JAVA8_DOUBLE_UNDERSCORE
  deriving Repr, DecidableEq

/-- `LombokConstructorAnnotation` (models/types.ts). -/
structure LombokConstructorAnnotation where
  type : LombokConstructorType
  hasAutowired : Bool
  syntaxVariant : OnConstructorSyntax
  location : BeanLocation
  deriving Repr, DecidableEq

/-- `LombokFieldInfo` (models/types.ts). -/
structure LombokFieldInfo where
  name : String
  type : String
  location : BeanLocation
  hasNonNull : Bool
  isFinal : Bool
  qualifier : Option String
  annotations : List String
  deriving Repr, DecidableEq

/-- `BeanDefinition` (models/BeanDefinition.ts interface, as used by
beanMetadataExtractor.ts and the data-model document). -/
structure BeanDefinition where
  name : String
  type : String
  definitionType : BeanDefinitionType
  location : BeanLocation
  annotationType : String
  scope : String
  qualifiers : List String
  isPrimary : Bool
  isConditional : Bool
  implementedInterfaces : Option (List String) := none
  deriving Repr, DecidableEq

/-- `BeanInjectionPoint` (models/BeanInjectionPoint.ts interface). -/
structure BeanInjectionPoint where
  injectionType : InjectionType
  beanType : String
  beanName : Option String := none
  location : BeanLocation
  qualifier : Option String := none
  isRequired : Bool
  fieldName : Option String := none
  parameterName : Option String := none
  parameterIndex : Option Nat := none
  deriving Repr, DecidableEq

/-- `BeanCandidate` (models/BeanCandidate.ts interface). -/
structure BeanCandidate where
  beanDefinition : BeanDefinition
  matchScore : Nat
  matchReason : MatchReason
  displayLabel : String
  displayDescription : Option String := none
  displayDetail : Option String := none
  deriving Repr, DecidableEq

/-- Annotation occurrence produced by the annotation scanner.
Modelled from the spec: `annotationScanner.ts` (the Annotation Classifier) is
not under src/; the spec's §3 AnnotationOccurrence is (name, ordered parameter
mapping name→raw value, location), and every consumer in src/ reads exactly
`name`, `parameters.get(...)` and `location`. -/
structure Annotation where
  name : String
  parameters : List (String × String)
  location : BeanLocation
  deriving Repr, DecidableEq

namespace BeanInjectionPoint

/-- `BeanInjectionPoint.getEffectiveIdentifier` (models/BeanInjectionPoint.ts,
lines 120–128): qualifier has priority over beanName. The guards are the JS
truthiness tests `if (injection.qualifier)` / `if (injection.beanName)`, which
skip an empty string exactly like an absent one. -/
def getEffectiveIdentifier (injection : BeanInjectionPoint) : Option String :=
  if injection.qualifier.getD "" != "" then injection.qualifier
  else if injection.beanName.getD "" != "" then injection.beanName
  else none

/-- `BeanInjectionPoint.hasExplicitName` (models/BeanInjectionPoint.ts):
`!!injection.beanName || !!injection.qualifier` — JS truthiness, so an empty
string counts as absent. -/
def hasExplicitName (injection : BeanInjectionPoint) : Bool :=
  injection.beanName.getD "" != "" || injection.qualifier.getD "" != ""

end BeanInjectionPoint

namespace QualifierMatcher

/-- `QualifierMatcher.matchesQualifier` (resolver/qualifierMatcher.ts). -/
def matchesQualifier (bean : BeanDefinition) (qualifier : String) : Bool :=
  bean.qualifiers.contains qualifier

/-- `QualifierMatcher.filterByQualifier` (resolver/qualifierMatcher.ts). -/
def filterByQualifier (beans : List BeanDefinition) (qualifier : String) :
    List BeanDefinition :=
  beans.filter (fun bean => matchesQualifier bean qualifier)

/-- `QualifierMatcher.getEffectiveQualifier` (resolver/qualifierMatcher.ts,
lines 50–59): `qualifier` first, then `beanName`, else undefined. The guards
are the JS truthiness tests `if (injection.qualifier)` /
`if (injection.beanName)`, which skip an empty string exactly like an absent
one. -/
def getEffectiveQualifier (injection : BeanInjectionPoint) : Option String :=
  if injection.qualifier.getD "" != "" then injection.qualifier
  else if injection.beanName.getD "" != "" then injection.beanName
  else none

end QualifierMatcher

/-! ### Regular-expression helpers used by the Lombok annotation detector

`lombokAnnotationDetector.ts` uses two pre-compiled regexes:
`AUTOWIRED_PATTERN = /@Autowired\b/i` and `JAVA7_PATTERN = /@__\s*\(/`.
They are embedded as explicit scanners over the string's character list,
with ECMAScript's ASCII simple case folding, `\w` and `\s` classes. -/

/-- ECMAScript simple case folding for the `/i` flag, on code points
(ASCII upper → lower; the pattern `@Autowired` is pure ASCII). -/
def lowerCodePoint (n : Nat) : Nat :=
  if 65 ≤ n && n ≤ 90 then n + 32 else n

/-- Case-insensitive character comparison for the `/i` flag. -/
def charEqCI (a b : Char) : Bool :=
  lowerCodePoint a.toNat == lowerCodePoint b.toNat

/-- ECMAScript `\w` class: `[A-Za-z0-9_]`. -/
def isWordChar (c : Char) : Bool :=
  let n := c.toNat
  (48 ≤ n && n ≤ 57) || (65 ≤ n && n ≤ 90) || (97 ≤ n && n ≤ 122) || n == 95

/-- ECMAScript `\s` class restricted to its ASCII members
(tab, LF, VT, FF, CR, space), which are the only ones relevant here. -/
def isJsSpace (c : Char) : Bool :=
  let n := c.toNat
  n == 9 || n == 10 || n == 11 || n == 12 || n == 13 || n == 32

/-- Match `pat` case-insensitively as a prefix of `cs`; on success return the
remaining characters. -/
def matchPrefixCI : List Char → List Char → Option (List Char)
  | [], cs => some cs
  | _ :: _, [] => none
  | p :: ps, c :: cs => if charEqCI p c then matchPrefixCI ps cs else none

/-- Match `pat` case-sensitively as a prefix of `cs`. -/
def matchPrefixCS : List Char → List Char → Option (List Char)
  | [], cs => some cs
  | _ :: _, [] => none
  | p :: ps, c :: cs => if p == c then matchPrefixCS ps cs else none

/-- `/@Autowired\b/i` anchored at the head of `cs`: the literal matches
case-insensitively and the following character (if any) is outside `\w`. -/
def autowiredHere (cs : List Char) : Bool :=
  match matchPrefixCI "@Autowired".data cs with
  | none => false
  | some [] => true
  | some (c :: _) => !isWordChar c

/-- Unanchored search for `/@Autowired\b/i`. -/
def containsAutowiredChars : List Char → Bool
  | [] => false
  | c :: cs => autowiredHere (c :: cs) || containsAutowiredChars cs

/-- `LombokAnnotationDetector.containsAutowired` (lombokAnnotationDetector.ts,
lines 471–473): `AUTOWIRED_PATTERN.test(onConstructorValue)`. -/
def containsAutowired (onConstructorValue : String) : Bool :=
  containsAutowiredChars onConstructorValue.data

/-- `/@__\s*\(/` anchored at the head of `cs`. -/
def java7Here (cs : List Char) : Bool :=
  match matchPrefixCS "@__".data cs with
  | none => false
  | some rest =>
    match rest.dropWhile isJsSpace with
    | '(' :: _ => true
    | _ => false

/-- Unanchored search for `/@__\s*\(/`. -/
def java7PatternChars : List Char → Bool
  | [] => false
  | c :: cs => java7Here (c :: cs) || java7PatternChars cs

/-- `JAVA7_PATTERN.test` (lombokAnnotationDetector.ts, line 357). -/
def java7PatternTest (s : String) : Bool :=
  java7PatternChars s.data

namespace LombokAnnotationDetector

/-- `LombokAnnotationDetector.isLombokConstructorAnnotation`
(lombokAnnotationDetector.ts, lines 408–411). -/
def isLombokConstructorAnnotation ( annotation : Annotation) : Bool :=
  annotation.name == "@RequiredArgsConstructor" ||
    annotation.name == "@AllArgsConstructor"

/-- `LombokAnnotationDetector.extractOnConstructorValue`
(lombokAnnotationDetector.ts, lines 424–436): probe the parameter map for the
three variants in order. -/
def extractOnConstructorValue ( annotation : Annotation) : Option String :=
  match annotation.parameters.lookup "onConstructor" with
  | some v => some v
  | none =>
    match annotation.parameters.lookup "onConstructor_" with
    | some v => some v
    | none =>
      match annotation.parameters.lookup "onConstructor__" with
      | some v => some v
      | none => none

/-- `LombokAnnotationDetector.extractOnConstructorValueWithVariant`
(lombokAnnotationDetector.ts, lines 446–461). -/
def extractOnConstructorValueWithVariant ( annotation : Annotation) :
    Option String × Option String :=
  match annotation.parameters.lookup "onConstructor" with
  | some v => (some v, some "onConstructor")
  | none =>
    match annotation.parameters.lookup "onConstructor_" with
    | some v => (some v, some "onConstructor_")
    | none =>
      match annotation.parameters.lookup "onConstructor__" with
      | some v => (some v, some "onConstructor__")
      | none => (none, none)

/-- `LombokAnnotationDetector.determineSyntaxVariant`
(lombokAnnotationDetector.ts, lines 484–500). -/
def determineSyntaxVariant (onConstructorValue : String)
    (parameterVariant : Option String) : OnConstructorSyntax :=
  if parameterVariant == some "onConstructor__" then
    .JAVA8_DOUBLE_UNDERSCORE
  else if parameterVariant == some "onConstructor_" then
    .JAVA8_UNDERSCORE
  else if java7PatternTest onConstructorValue then
    .JAVA7
  else
    .JAVA8_UNDERSCORE

/-- `LombokAnnotationDetector.detectConstructorInjection`
(lombokAnnotationDetector.ts, lines 365–400). `find` takes the first Lombok
constructor annotation; `if (!onConstructorValue)` treats both a missing
parameter and an empty raw value as absent. -/
def detectConstructorInjection (classAnnotations : List Annotation) :
    Option LombokConstructorAnnotation :=
  match classAnnotations.find? isLombokConstructorAnnotation with
  | none => none
  | some lombokAnnotation =>
    match extractOnConstructorValueWithVariant lombokAnnotation with
    | (none, _) => none
    | (some onConstructorValue, parameterVariant) =>
      if onConstructorValue == "" then none
      else if containsAutowired onConstructorValue then
        some
          { type :=
              if lombokAnnotation.name == "@RequiredArgsConstructor" then
                .REQUIRED_ARGS
              else
                .ALL_ARGS
            hasAutowired := true
            syntaxVariant :=
              determineSyntaxVariant onConstructorValue parameterVariant
            location := lombokAnnotation.location }
      else none

end LombokAnnotationDetector

/-! ### The java-parser concrete syntax tree

The extractor navigates an opaque CST through `node.children?.key?.[i]`,
`node.image` (tokens) and `node.location`. The embedding keeps exactly that
shape: inner nodes carry a keyed list of child arrays and an optional
location, leaves carry an image string. -/

/-- Token coordinates read by `extractFieldLocation` (`startLine`,
`startColumn`; either may be absent). -/
structure CstLoc where
  startLine : Option Nat
  startColumn : Option Nat
  deriving Repr, DecidableEq

/-- A java-parser CST value. -/
inductive CstNode where
  | node (children : List (String × List CstNode)) (loc : Option CstLoc)
  | token (image : String)
  deriving Repr

/-- `n.children` as a keyed map (tokens have no children). -/
def CstNode.childrenOf : CstNode → List (String × List CstNode)
  | .node cs _ => cs
  | .token _ => []

/-- `n.children?.key || []`. -/
def getChildren (n : CstNode) (key : String) : List CstNode :=
  ((n.childrenOf).lookup key).getD []

/-- `n.children?.key?.[0]`. -/
def firstChild (n : CstNode) (key : String) : Option CstNode :=
  (getChildren n key).head?

/-- `n.image` (defined on tokens only). -/
def CstNode.image? : CstNode → Option String
  | .token s => some s
  | .node _ _ => none

/-- `n.location` (defined on inner nodes only). -/
def CstNode.loc? : CstNode → Option CstLoc
  | .node _ l => l
  | .token _ => none

namespace LombokInjectionExtractor

/-- `LombokInjectionExtractor.extractFieldType` (lombokInjectionExtractor.ts,
lines 175–203): `fieldDeclaration → unannType → classOrInterfaceType →
typeIdentifier → Identifier`, `'Object'` on any miss (JS truthiness also
rejects an empty image). -/
def extractFieldType (fieldDeclaration : CstNode) : String :=
  match firstChild fieldDeclaration "unannType" with
  | none => "Object"
  | some unannType =>
    match firstChild unannType "classOrInterfaceType" with
    | none => "Object"
    | some classOrInterfaceType =>
      match firstChild classOrInterfaceType "typeIdentifier" with
      | none => "Object"
      | some typeIdentifier =>
        match (firstChild typeIdentifier "Identifier").bind CstNode.image? with
        | some s => if s == "" then "Object" else s
        | none => "Object"

/-- `LombokInjectionExtractor.extractFieldName` (lombokInjectionExtractor.ts,
lines 211–233). -/
def extractFieldName (fieldDeclaration : CstNode) : Option String :=
  (firstChild fieldDeclaration "variableDeclaratorList").bind fun l =>
    (firstChild l "variableDeclarator").bind fun d =>
      (firstChild d "variableDeclaratorId").bind fun i =>
        (firstChild i "Identifier").bind CstNode.image?

/-- `location.startLine ? location.startLine - 1 : 0` — JS truthiness makes
both an absent and a zero coordinate fall back to 0. -/
def jsPredOrZero : Option Nat → Nat
  | some n => if n == 0 then 0 else n - 1
  | none => 0

/-- `LombokInjectionExtractor.extractFieldLocation`
(lombokInjectionExtractor.ts, lines 242–261). -/
def extractFieldLocation (fieldDeclaration : CstNode) (uri : String) :
    BeanLocation :=
  match fieldDeclaration.loc? with
  | some loc =>
    { uri := uri
      line := jsPredOrZero loc.startLine
      column := jsPredOrZero loc.startColumn }
  | none => { uri := uri, line := 0, column := 0 }

/-- `modifier → annotation → typeName → Identifier`, the shared navigation of
the three modifier scanners. -/
def annotationNameOf (modifier : CstNode) : Option String :=
  (firstChild modifier "annotation").bind fun annotation =>
    ((firstChild annotation "typeName").bind fun typeName =>
      firstChild typeName "Identifier").bind CstNode.image?

/-- `LombokInjectionExtractor.hasNonNullAnnotation`
(lombokInjectionExtractor.ts, lines 269–285). -/
def hasNonNullAnnotation (fieldModifiers : List CstNode) : Bool :=
  fieldModifiers.any fun modifier => annotationNameOf modifier == some "NonNull"

/-- `LombokInjectionExtractor.isFinalField` (lombokInjectionExtractor.ts,
lines 293–302). -/
def isFinalField (fieldModifiers : List CstNode) : Bool :=
  fieldModifiers.any fun modifier => (firstChild modifier "Final").isSome

/-- `LombokInjectionExtractor.extractStringLiteral`
(lombokInjectionExtractor.ts, lines 368–385). -/
def extractStringLiteral (elementValue : CstNode) : Option String :=
  (firstChild elementValue "expression").bind fun e =>
    (firstChild e "lambdaExpression").bind fun l =>
      (firstChild l "ternaryExpression").bind fun t =>
        (firstChild t "binaryExpression").bind fun b =>
          (firstChild b "unaryExpression").bind fun u =>
            (firstChild u "primary").bind fun p =>
              (firstChild p "primaryPrefix").bind fun pp =>
                (firstChild pp "literal").bind fun lit =>
                  (firstChild lit "StringLiteral").bind CstNode.image?

/-- `.replace(/^["']|["']$/g, '')`: strip one leading and one trailing
quote character. -/
def stripQuotes (s : String) : String :=
  let l := s.data
  let l1 :=
    match l with
    | c :: rest => if c == '"' || c == '\'' then rest else l
    | [] => []
  let l2 :=
    match l1.getLast? with
    | some c => if c == '"' || c == '\'' then l1.dropLast else l1
    | none => l1
  ⟨l2⟩

/-- `LombokInjectionExtractor.extractQualifier` (lombokInjectionExtractor.ts,
lines 310–334): first `@Qualifier` modifier with a (truthy) string-literal
element value wins; the loop continues past partial matches. -/
def extractQualifier : List CstNode → Option String
  | [] => none
  | modifier :: rest =>
    match firstChild modifier "annotation" with
    | none => extractQualifier rest
    | some annotation =>
      if annotationNameOf modifier == some "Qualifier" then
        match firstChild annotation "elementValue" with
        | some elementValue =>
          match extractStringLiteral elementValue with
          | some lit =>
            if lit == "" then extractQualifier rest else some (stripQuotes lit)
          | none => extractQualifier rest
        | none => extractQualifier rest
      else extractQualifier rest

/-- `LombokInjectionExtractor.extractAnnotationNames`
(lombokInjectionExtractor.ts, lines 342–360): `@` plus each (truthy)
annotation identifier. -/
def extractAnnotationNames (modifiers : List CstNode) : List String :=
  modifiers.filterMap fun modifier =>
    (annotationNameOf modifier).bind fun img =>
      if img == "" then none else some ("@" ++ img)

/-- `LombokInjectionExtractor.extractFieldInfo` (lombokInjectionExtractor.ts,
lines 58–125): walk `ordinaryCompilationUnit → typeDeclaration* →
classDeclaration → normalClassDeclaration → classBody →
classBodyDeclaration*`, taking every `fieldDeclaration` (there is no check of
the `Static` modifier) and keeping entries whose name and type are truthy. -/
def extractFieldInfo (cst : CstNode) (uri : String) : List LombokFieldInfo :=
  match firstChild cst "ordinaryCompilationUnit" with
  | none => []
  | some ocu =>
    (getChildren ocu "typeDeclaration").flatMap fun typeDecl =>
      match
        ((firstChild typeDecl "classDeclaration").bind fun c =>
          firstChild c "normalClassDeclaration").bind fun n =>
          firstChild n "classBody"
      with
      | none => []
      | some classBody =>
        (getChildren classBody "classBodyDeclaration").filterMap fun bodyDecl =>
          match
            (firstChild bodyDecl "classMemberDeclaration").bind fun m =>
              firstChild m "fieldDeclaration"
          with
          | none => none
          | some fieldDecl =>
            let modifiers := getChildren bodyDecl "modifier"
            let fieldType := extractFieldType fieldDecl
            match extractFieldName fieldDecl with
            | none => none
            | some fieldName =>
              if fieldName == "" || fieldType == "" then none
              else
                some
                  { name := fieldName
                    type := fieldType
                    location := extractFieldLocation fieldDecl uri
                    hasNonNull := hasNonNullAnnotation modifiers
                    isFinal := isFinalField modifiers
                    qualifier := extractQualifier modifiers
                    annotations := extractAnnotationNames modifiers }

/-- `LombokInjectionExtractor.filterFields` (lombokInjectionExtractor.ts,
lines 134–146). -/
def filterFields (fields : List LombokFieldInfo)
    ( lombokAnnotation : LombokConstructorAnnotation) : List LombokFieldInfo :=
  if lombokAnnotation.type == LombokConstructorType.ALL_ARGS then
    fields
  else if lombokAnnotation.type == LombokConstructorType.REQUIRED_ARGS then
    fields.filter fun field => field.hasNonNull || field.isFinal
  else
    []

/-- `LombokInjectionExtractor.convertToInjectionPoints`
(lombokInjectionExtractor.ts, lines 156–165). -/
def convertToInjectionPoints (fields : List LombokFieldInfo) :
    List BeanInjectionPoint :=
  fields.map fun field =>
    { injectionType := .LOMBOK_CONSTRUCTOR
      beanType := field.type
      location := field.location
      qualifier := field.qualifier
      isRequired := true
      fieldName := some field.name }

/-- `LombokInjectionExtractor.extract` (lombokInjectionExtractor.ts,
lines 31–47). -/
def extract (cst : CstNode) (uri : String)
    ( lombokAnnotation : LombokConstructorAnnotation) : List BeanInjectionPoint :=
  convertToInjectionPoints
    (filterFields (extractFieldInfo cst uri) lombokAnnotation)

end LombokInjectionExtractor

/-! ### Bean metadata extraction (beanMetadataExtractor.ts) -/

/-- JavaScript `a || b` on optional strings (`""` is falsy). -/
def jsOrS (a b : Option String) : Option String :=
  if a.getD "" == "" then b else a

/-- `AnnotationScanner.extractAnnotationParameter`.
Modelled from the spec: `annotationScanner.ts` is not under src/; per §4.3 the
extractor reads the explicit `value`/`name` parameter from the occurrence's
parameter mapping, so this is a lookup in that mapping. -/
def extractAnnotationParameter ( annotation : Annotation) (key : String) :
    Option String :=
  annotation.parameters.lookup key

/-- `AnnotationScanner.isBeanDefinitionAnnotation`.
Modelled from the spec: §4.3's fixed declaration-annotation set — one generic
stereotype, four role-specific stereotypes, one factory-method annotation. -/
def isBeanDefinitionAnnotation ( annotation : Annotation) : Bool :=
  annotation.name == "@Component" || annotation.name == "@Service" ||
    annotation.name == "@Repository" || annotation.name == "@Controller" ||
    annotation.name == "@RestController" || annotation.name == "@Bean"

/-- `AnnotationScanner.isInjectionAnnotation`.
Modelled from the spec: §4.3's fixed injection-trigger set of three synonymous
annotations. -/
def isInjectionAnnotation ( annotation : Annotation) : Bool :=
  annotation.name == "@Autowired" || annotation.name == "@Resource" ||
    annotation.name == "@Inject"

/-- `BeanDefinition.getDefaultBeanName`.
Modelled from the spec: `models/BeanDefinition.ts` statics are not under src/;
per §4.3 the default declared name is the lower-camel-case of the simple
identifier, i.e. the name with its first letter lowered. -/
def getDefaultBeanName (className : String) : String :=
  match className.data with
  | [] => ""
  | c :: rest => ⟨c.toLower :: rest⟩

namespace BeanMetadataExtractor

/-- Result of `BeanMetadataExtractor.extractClassInfo`. -/
structure ClassInfo where
  className : String
  fullyQualifiedName : String
  packageName : String
  deriving Repr, DecidableEq

/-- `BeanMetadataExtractor.extractPackageName` (beanMetadataExtractor.ts,
lines 237–249): join the `Identifier` token images with `.`. -/
def extractPackageName (packageDecl : Option CstNode) : String :=
  match packageDecl with
  | none => ""
  | some p =>
    String.intercalate "."
      ((getChildren p "Identifier").map fun n => (n.image?).getD "")

/-- `BeanMetadataExtractor.extractClassInfo` (beanMetadataExtractor.ts,
lines 205–230): package from `compilationUnit → packageDeclaration`, class
name from `compilationUnit → typeDeclaration → classDeclaration →
typeIdentifier → Identifier`; absent if the class name is not truthy. -/
def extractClassInfo (cst : CstNode) : Option ClassInfo :=
  let cu := firstChild cst "compilationUnit"
  let packageName :=
    extractPackageName (cu.bind fun c => firstChild c "packageDeclaration")
  let className? :=
    (((cu.bind fun c => firstChild c "typeDeclaration").bind fun t =>
        firstChild t "classDeclaration").bind fun c =>
        firstChild c "typeIdentifier").bind fun t =>
      (firstChild t "Identifier").bind CstNode.image?
  match className? with
  | none => none
  | some className =>
    if className == "" then none
    else
      some
        { className := className
          fullyQualifiedName :=
            if packageName == "" then className
            else packageName ++ "." ++ className
          packageName := packageName }

/-- `BeanMetadataExtractor.createBeanDefinition` (beanMetadataExtractor.ts,
lines 119–160): the bean type is always `classInfo.fullyQualifiedName` — the
enclosing class — even when the annotation is `@Bean`
(`definitionType = BEAN_METHOD`). -/
def createBeanDefinition ( annotation : Annotation) (cst : CstNode) :
    Option BeanDefinition :=
  let explicitName :=
    jsOrS (extractAnnotationParameter annotation "value")
      (extractAnnotationParameter annotation "name")
  match extractClassInfo cst with
  | none => none
  | some classInfo =>
    let beanName :=
      (jsOrS explicitName
          (some (getDefaultBeanName classInfo.className))).getD ""
    some
      { name := beanName
        type := classInfo.fullyQualifiedName
        definitionType :=
          if annotation.name == "@Bean" then .BEAN_METHOD else .COMPONENT
        location := annotation.location
        annotationType := annotation.name
        scope := "singleton"
        qualifiers := []
        isPrimary := false
        isConditional := false }

/-- `BeanMetadataExtractor.createInjectionPoint` (beanMetadataExtractor.ts,
lines 169–198): `determineInjectionType` is the FIELD constant and the
private `extractFieldInfo` is the fixed `{unknownField, java.lang.Object}`
placeholder, so only the qualifier (`value` parameter) and location vary. -/
def createInjectionPoint ( annotation : Annotation) :
    Option BeanInjectionPoint :=
  some
    { injectionType := .FIELD
      beanType := "java.lang.Object"
      location := annotation.location
      qualifier := extractAnnotationParameter annotation "value"
      isRequired := true
      fieldName := some "unknownField" }

/-- Extraction result (`ExtractionResult`, beanMetadataExtractor.ts). -/
structure ExtractionResult where
  definitions : List BeanDefinition
  injectionPoints : List BeanInjectionPoint
  deriving Repr, DecidableEq

/-- `BeanMetadataExtractor.extractBeanDefinitions` (beanMetadataExtractor.ts,
lines 75–88). -/
def extractBeanDefinitions (annotations : List Annotation) (cst : CstNode) :
    List BeanDefinition :=
  (annotations.filter isBeanDefinitionAnnotation).filterMap
    fun a => createBeanDefinition a cst

/-- `BeanMetadataExtractor.extractInjectionPoints` (beanMetadataExtractor.ts,
lines 97–110). -/
def extractInjectionPoints (annotations : List Annotation) :
    List BeanInjectionPoint :=
  (annotations.filter isInjectionAnnotation).filterMap createInjectionPoint

/-- `BeanMetadataExtractor.extractFromFile` (beanMetadataExtractor.ts,
lines 39–66). The parser collaborator is the `Option CstNode` argument
(`getCST` yields "no tree" as `none`); the annotation scanner is the
`scanner` argument (its implementation is not under src/). When no tree is
available the file contributes the empty result. -/
def extractFromFile (scanner : CstNode → List Annotation)
    (cst? : Option CstNode) : ExtractionResult :=
  match cst? with
  | none => { definitions := [], injectionPoints := [] }
  | some cst =>
    let annotations := scanner cst
    { definitions := extractBeanDefinitions annotations cst
      injectionPoints := extractInjectionPoints annotations }

end BeanMetadataExtractor

/-! ### The bean index (spec §4.5) and the indexer (beanIndexer.ts) -/

/-- Last dot-separated segment of a type name (the simple name). -/
def lastSegment (t : String) : String :=
  ⟨t.data.foldl (fun acc c => if c == '.' then [] else acc ++ [c]) []⟩

/-- Whether a type name is dotted-qualified. -/
def containsDot (t : String) : Bool :=
  t.data.contains '.'

/-- `BeanIndex.isTypeMatch`.
Modelled from the spec: `models/BeanIndex.ts` is not under src/; §4.5's
`byType` match rule is "identical strings match; or one is a dotted-qualified
name whose final segment equals the other (either direction)". -/
def isTypeMatch (t1 t2 : String) : Bool :=
  t1 == t2 || (containsDot t1 && lastSegment t1 == t2) ||
    (containsDot t2 && lastSegment t2 == t1)

/-- The index state.
Modelled from the spec: `models/BeanIndex.ts` is not under src/; §3/§4.5
describe a store of the current declarations and use-sites whose four keyed
views are derived and mutually consistent, so the state is the pair of entry
lists and each view is computed from it. -/
structure BeanIndexState where
  beans : List BeanDefinition
  injections : List BeanInjectionPoint
  deriving Repr, DecidableEq

namespace BeanIndexState

/-- The empty index. -/
def empty : BeanIndexState :=
  { beans := [], injections := [] }

/-- `BeanIndex.removeFileEntries`.
Modelled from the spec: drop every declaration and use-site owned by the
file (entries are keyed by their location's file). -/
def removeFileEntries (s : BeanIndexState) (filePath : String) :
    BeanIndexState :=
  { beans := s.beans.filter fun d => !(d.location.uri == filePath)
    injections := s.injections.filter fun p => !(p.location.uri == filePath) }

/-- `BeanIndex.addBeans`. Modelled from the spec: insert the declarations. -/
def addBeans (s : BeanIndexState) (ds : List BeanDefinition) : BeanIndexState :=
  { s with beans := s.beans ++ ds }

/-- `BeanIndex.addInjections`. Modelled from the spec: insert the use-sites. -/
def addInjections (s : BeanIndexState) (ps : List BeanInjectionPoint) :
    BeanIndexState :=
  { s with injections := s.injections ++ ps }

/-- `BeanIndex.findDefinitionsByType` (`byType`).
Modelled from the spec: all current declarations whose declared type matches
under the §4.5 rule. -/
def findDefinitionsByType (s : BeanIndexState) (t : String) :
    List BeanDefinition :=
  s.beans.filter fun d => isTypeMatch t d.type

/-- `BeanIndex.findDefinitionByName` (`byName`).
Modelled from the spec: name is unique with last-writer-wins (§3), so the
most recently inserted declaration of that name is returned. -/
def findDefinitionByName (s : BeanIndexState) (n : String) :
    Option BeanDefinition :=
  (s.beans.filter fun d => d.name == n).getLast?

/-- `BeanIndex.getInjectionPointsForUri` (`useSitesOf`).
Modelled from the spec: the use-sites owned by the file. -/
def useSitesOf (s : BeanIndexState) (filePath : String) :
    List BeanInjectionPoint :=
  s.injections.filter fun p => p.location.uri == filePath

/-- Declarations owned by a file (the `file→[Declaration]` view of §3). -/
def fileDefinitions (s : BeanIndexState) (filePath : String) :
    List BeanDefinition :=
  s.beans.filter fun d => d.location.uri == filePath

end BeanIndexState

/-- The body shared by `BeanIndexer.updateFile` (beanIndexer.ts,
lines 106–124) after extraction: remove the file's old entries, then add the
freshly extracted definitions and injection points. This is the spec's
`addFile(fileId, declarations, useSites)`. -/
def applyFileResult (s : BeanIndexState) (filePath : String)
    (result : BeanMetadataExtractor.ExtractionResult) : BeanIndexState :=
  ((s.removeFileEntries filePath).addBeans result.definitions).addInjections
    result.injectionPoints

/-- `BeanIndexer.updateFile` (beanIndexer.ts, lines 106–124): extract from the
parser's tree (possibly absent) and apply. -/
def updateFile (scanner : CstNode → List Annotation) (s : BeanIndexState)
    (filePath : String) (cst? : Option CstNode) : BeanIndexState :=
  applyFileResult s filePath (BeanMetadataExtractor.extractFromFile scanner cst?)

/-- `BeanIndexer.removeFile` (beanIndexer.ts, lines 126–128). -/
def removeFile (s : BeanIndexState) (filePath : String) : BeanIndexState :=
  s.removeFileEntries filePath

/-- `BeanIndexer.buildFullIndex` (beanIndexer.ts, lines 90–104): update every
file in turn, starting from the given state. Each list element is a file with
the parser's result for it (`none` = parse unavailable). -/
def buildIndexFrom (scanner : CstNode → List Annotation) (s : BeanIndexState) :
    List (String × Option CstNode) → BeanIndexState
  | [] => s
  | (filePath, cst?) :: rest =>
    buildIndexFrom scanner (updateFile scanner s filePath cst?) rest

/-! ### Candidate construction and ranking (BeanCandidate.ts) -/

/-- `getIconForAnnotation` (BeanCandidate.ts, lines 115–133). -/
def getIconForAnnotation (annotationType : String) : String :=
  if annotationType == "@Service" then "$(gear)"
  else if annotationType == "@Repository" then "$(database)"
  else if annotationType == "@Controller" || annotationType == "@RestController"
    then "$(globe)"
  else if annotationType == "@Component" then "$(symbol-class)"
  else if annotationType == "@Bean" then "$(symbol-method)"
  else if annotationType == "@Configuration" then "$(file-code)"
  else "$(symbol-class)"

/-- `BeanDefinition.getSimpleClassName`.
Modelled from the spec: `models/BeanDefinition.ts` statics are not under
src/; the simple class name is the final dotted segment. -/
def getSimpleClassName (t : String) : String :=
  lastSegment t

/-- `BeanDefinition.getPackageName`.
Modelled from the spec: the dotted prefix before the simple name
(empty for an unqualified name). -/
def getPackageName (t : String) : String :=
  ⟨(t.data.foldl
      (fun (st : List Char × List Char) c =>
        if c == '.' then
          (st.1 ++ (if st.1.isEmpty then [] else ['.']) ++ st.2, [])
        else
          (st.1, st.2 ++ [c]))
      ([], [])).1⟩

namespace BeanCandidate

/-- `formatDisplayLabel` (BeanCandidate.ts, lines 58–62). -/
def formatDisplayLabel (bean : BeanDefinition) : String :=
  getIconForAnnotation bean.annotationType ++ " " ++ getSimpleClassName bean.type

/-- `formatDisplayDescription` (BeanCandidate.ts, lines 69–71). -/
def formatDisplayDescription (bean : BeanDefinition) : String :=
  getPackageName bean.type

/-- `formatDisplayDetail` (BeanCandidate.ts, lines 78–108). -/
def formatDisplayDetail (bean : BeanDefinition) : String :=
  let parts :=
    [bean.annotationType, bean.name] ++
      (if bean.isPrimary then ["@Primary"] else []) ++
      (if !bean.qualifiers.isEmpty then
        ["@Qualifier(" ++ String.intercalate ", " bean.qualifiers ++ ")"]
      else []) ++
      (if bean.scope != "" && bean.scope != "singleton" then
        ["scope: " ++ bean.scope]
      else []) ++
      [bean.location.uri ++ ":" ++ toString (bean.location.line + 1)]
  String.intercalate " • " parts

/-- `BeanCandidate.create` (BeanCandidate.ts, lines 42–51). -/
def create (bean : BeanDefinition) (matchReason : MatchReason) : BeanCandidate :=
  { beanDefinition := bean
    matchScore := getMatchScore matchReason
    matchReason := matchReason
    displayLabel := formatDisplayLabel bean
    displayDescription := some (formatDisplayDescription bean)
    displayDetail := some (formatDisplayDetail bean) }

/-- Stable descending insertion by `matchScore`: the new element passes every
strictly higher score and lands before the first element whose score is not
higher, so elements of equal score keep their relative order. -/
def insertByScore (c : BeanCandidate) : List BeanCandidate → List BeanCandidate
  | [] => [c]
  | y :: ys =>
    if c.matchScore < y.matchScore then y :: insertByScore c ys
    else c :: y :: ys

/-- `BeanCandidate.sortByScore` (BeanCandidate.ts, lines 140–142):
`[...candidates].sort((a, b) => b.matchScore - a.matchScore)`. ECMAScript
`Array.prototype.sort` with this consistent comparator is the stable
descending reordering by `matchScore`, realized here as a stable insertion
sort. -/
def sortByScore (candidates : List BeanCandidate) : List BeanCandidate :=
  candidates.foldr insertByScore []

/-- `BeanCandidate.filterTopMatches` (BeanCandidate.ts, lines 149–157). -/
def filterTopMatches (candidates : List BeanCandidate) : List BeanCandidate :=
  match sortByScore candidates with
  | [] => []
  | top :: rest =>
    (top :: rest).filter fun c => c.matchScore == top.matchScore

end BeanCandidate

/-! ### The resolver (spec §4.6) -/

/-- The qualifier step's candidate set (spec §4.6 step 1): type-matching
declarations whose qualifier set contains the use-site's qualifier, each at
score 100.
Modelled from the spec: `resolver/beanResolver.ts` / `BeanIndex.findCandidates`
are not under src/. -/
def qualifierCandidates (index : BeanIndexState) (useSite : BeanInjectionPoint) :
    List BeanCandidate :=
  match useSite.qualifier with
  | some q =>
    ((index.findDefinitionsByType useSite.beanType).filter fun d =>
        QualifierMatcher.matchesQualifier d q).map
      fun d => BeanCandidate.create d .EXACT_QUALIFIER
  | none => []

/-- Step 2 of the cascade (spec §4.6): resolve the explicit declared name
through `byName`, filtered to type-compatible, at score 90.
Modelled from the spec: `resolver/beanResolver.ts` / `BeanIndex.findCandidates`
are not under src/. -/
def nameStepCandidates (index : BeanIndexState) (n : String)
    (useSite : BeanInjectionPoint) : List BeanCandidate :=
  match index.findDefinitionByName n with
  | some d =>
    if isTypeMatch useSite.beanType d.type then
      [BeanCandidate.create d .EXACT_NAME]
    else []
  | none => []

/-- Step 3 of the cascade (spec §4.6): the type matches — a sole
primary-marked one alone at score 80, otherwise all at score 70, ranked (the
subtype score-60 path is the spec's always-false stub and contributes
nothing).
Modelled from the spec: `resolver/beanResolver.ts` / `BeanIndex.findCandidates`
are not under src/. -/
def typeStepCandidates (index : BeanIndexState)
    (useSite : BeanInjectionPoint) : List BeanCandidate :=
  let typeMatches := index.findDefinitionsByType useSite.beanType
  let primaries := typeMatches.filter fun d => d.isPrimary
  if primaries.length == 1 then
    primaries.map fun d => BeanCandidate.create d .PRIMARY_BEAN
  else
    BeanCandidate.sortByScore
      (typeMatches.map fun d => BeanCandidate.create d .TYPE_MATCH)

/-- `resolve(useSite, index)`.
Modelled from the spec: `resolver/beanResolver.ts` / `BeanIndex.findCandidates`
are not under src/. §4.6's cascade: (1) with an explicit qualifier the
qualifier-filtered type matches are returned at score 100 and the cascade
stops — the explicit-name step is guarded by the qualifier's absence ("Else
explicit declared-name present"), so the name is never consulted; (2) else an
explicit declared name resolves via the name step; (3) else the type step.
An optional string is "present" when truthy, i.e. non-empty — the JS
truthiness discipline of the src helpers `getEffectiveQualifier` and
`getEffectiveIdentifier`. -/
def resolve (useSite : BeanInjectionPoint) (index : BeanIndexState) :
    List BeanCandidate :=
  if useSite.qualifier.getD "" != "" then
    BeanCandidate.sortByScore (qualifierCandidates index useSite)
  else
    match useSite.beanName with
    | some n =>
      if n == "" then typeStepCandidates index useSite
      else nameStepCandidates index n useSite
    | none => typeStepCandidates index useSite

/-! ### Concrete sample inputs used by witnesses and counterexamples -/

/-- A fixed location for sample data. -/
def sampleLoc : BeanLocation :=
  { uri := "/test/Mock.java", line := 0, column := 0 }

/-- Sample field `a`: final, no not-null marker (spec §8). -/
def fieldA : LombokFieldInfo :=
  { name := "a", type := "AService", location := sampleLoc
    hasNonNull := false, isFinal := true, qualifier := none, annotations := [] }

/-- Sample field `b`: not final, with the not-null marker (spec §8). -/
def fieldB : LombokFieldInfo :=
  { name := "b", type := "BService", location := sampleLoc
    hasNonNull := true, isFinal := false, qualifier := none
    annotations := ["@NonNull"] }

/-- Sample field `c`: not final, no marker (spec §8). -/
def fieldC : LombokFieldInfo :=
  { name := "c", type := "CService", location := sampleLoc
    hasNonNull := false, isFinal := false, qualifier := none, annotations := [] }

/-- A required-args descriptor. -/
def requiredArgsAnnotation : LombokConstructorAnnotation :=
  { type := .REQUIRED_ARGS, hasAutowired := true
    syntaxVariant := .JAVA7, location := sampleLoc }

/-- An all-args descriptor. -/
def allArgsAnnotation : LombokConstructorAnnotation :=
  { type := .ALL_ARGS, hasAutowired := true
    syntaxVariant := .JAVA7, location := sampleLoc }


/-- Sample bean definition `beanB` (declared name "beanB"). -/
def beanDefB : BeanDefinition :=
  { name := "beanB", type := "PayService", definitionType := .COMPONENT
    location := sampleLoc, annotationType := "@Service", scope := "singleton"
    qualifiers := [], isPrimary := false, isConditional := false }

/-- Sample bean definition `beanA` (declared name "beanA"). -/
def beanDefA : BeanDefinition :=
  { name := "beanA", type := "PayService", definitionType := .COMPONENT
    location := sampleLoc, annotationType := "@Service", scope := "singleton"
    qualifiers := [], isPrimary := false, isConditional := false }

/-- Candidate for `beanB` at score 70. -/
def candB : BeanCandidate :=
  { beanDefinition := beanDefB, matchScore := 70, matchReason := .TYPE_MATCH
    displayLabel := "$(gear) PayService" }

/-- Candidate for `beanA` at score 70. -/
def candA : BeanCandidate :=
  { beanDefinition := beanDefA, matchScore := 70, matchReason := .TYPE_MATCH
    displayLabel := "$(gear) PayService" }

/-- A declaration carrying qualifier "payQ". -/
def alipayBean : BeanDefinition :=
  { name := "alipay", type := "PayService", definitionType := .COMPONENT
    location := sampleLoc, annotationType := "@Service", scope := "singleton"
    qualifiers := ["payQ"], isPrimary := false, isConditional := false }

/-- A primary-marked declaration of the same type, named "wechat". -/
def wechatBean : BeanDefinition :=
  { name := "wechat", type := "PayService", definitionType := .COMPONENT
    location := sampleLoc, annotationType := "@Service", scope := "singleton"
    qualifiers := [], isPrimary := true, isConditional := false }

/-- Index holding the two `PayService` declarations. -/
def payIndex : BeanIndexState :=
  { beans := [alipayBean, wechatBean], injections := [] }

/-- A use-site with BOTH an explicit qualifier ("payQ") and an explicit
declared name ("wechat"). -/
def bothSetUseSite : BeanInjectionPoint :=
  { injectionType := .FIELD, beanType := "PayService"
    beanName := some "wechat", location := sampleLoc
    qualifier := some "payQ", isRequired := true }

/-- CST of `package com.example; ... class AppConfig { ... }` along the
navigation path of `BeanMetadataExtractor.extractClassInfo` (the `@Bean`
method's return type `RestTemplate` appears nowhere on that path because
`createBeanDefinition` never reads it). -/
def appConfigCst : CstNode :=
  .node
    [("compilationUnit",
      [.node
        [("packageDeclaration",
          [.node [("Identifier", [.token "com", .token "example"])] none]),
         ("typeDeclaration",
          [.node
            [("classDeclaration",
              [.node
                [("typeIdentifier",
                  [.node [("Identifier", [.token "AppConfig"])] none])]
                none])]
            none])]
        none])]
    none

/-- A `@Bean` factory-method annotation occurrence with no parameters. -/
def beanMethodAnnotation : Annotation :=
  { name := "@Bean", parameters := [], location := sampleLoc }

/-- Location inside file `/a/F.java`. -/
def locF : BeanLocation := { uri := "/a/F.java", line := 3, column := 1 }

/-- Location inside file `/a/G.java`. -/
def locG : BeanLocation := { uri := "/a/G.java", line := 7, column := 2 }

/-- A declaration owned by `/a/F.java` (first extraction). -/
def oldBeanF : BeanDefinition :=
  { name := "oldBean", type := "OldService", definitionType := .COMPONENT
    location := locF, annotationType := "@Service", scope := "singleton"
    qualifiers := [], isPrimary := false, isConditional := false }

/-- A declaration owned by `/a/G.java` (unrelated file). -/
def otherBeanG : BeanDefinition :=
  { name := "gBean", type := "GService", definitionType := .COMPONENT
    location := locG, annotationType := "@Service", scope := "singleton"
    qualifiers := [], isPrimary := false, isConditional := false }

/-- A use-site owned by `/a/G.java`. -/
def otherInjG : BeanInjectionPoint :=
  { injectionType := .FIELD, beanType := "GService", location := locG
    isRequired := true, fieldName := some "g" }

/-- A declaration for the second extraction of `/a/F.java`. -/
def newBeanF : BeanDefinition :=
  { name := "newBean", type := "NewService", definitionType := .COMPONENT
    location := locF, annotationType := "@Service", scope := "singleton"
    qualifiers := [], isPrimary := false, isConditional := false }

/-- A use-site owned by `/a/F.java` (first extraction). -/
def oldInjF : BeanInjectionPoint :=
  { injectionType := .FIELD, beanType := "OldDep", location := locF
    isRequired := true, fieldName := some "oldDep" }

/-- A use-site owned by `/a/F.java` (second extraction). -/
def newInjF : BeanInjectionPoint :=
  { injectionType := .FIELD, beanType := "NewDep", location := locF
    isRequired := true, fieldName := some "newDep" }

/-- Index state before re-indexing `/a/F.java`. -/
def stateBefore : BeanIndexState :=
  { beans := [otherBeanG], injections := [otherInjG] }

/-- First extraction result `D1` for `/a/F.java`. -/
def resultD1 : BeanMetadataExtractor.ExtractionResult :=
  { definitions := [oldBeanF], injectionPoints := [oldInjF] }

/-- Second extraction result `D2` for `/a/F.java`. -/
def resultD2 : BeanMetadataExtractor.ExtractionResult :=
  { definitions := [newBeanF], injectionPoints := [newInjF] }

/-- A `@RequiredArgsConstructor` occurrence with no parameters at all. -/
def reqArgsNoParams : Annotation :=
  { name := "@RequiredArgsConstructor", parameters := [], location := sampleLoc }

/-- An `@AllArgsConstructor` occurrence whose `onConstructor` parameter
contains `@Autowired`. -/
def allArgsWithAutowired : Annotation :=
  { name := "@AllArgsConstructor"
    parameters := [("onConstructor", "@__({@Autowired})")]
    location := sampleLoc }

/-- CST node of the field declaration `static final String CONSTANT;`. -/
def staticFieldDecl : CstNode :=
  .node
    [("unannType",
      [.node
        [("classOrInterfaceType",
          [.node
            [("typeIdentifier", [.node [("Identifier", [.token "String"])] none])]
            none])]
        none]),
     ("variableDeclaratorList",
      [.node
        [("variableDeclarator",
          [.node
            [("variableDeclaratorId",
              [.node [("Identifier", [.token "CONSTANT"])] none])]
            none])]
        none])]
    (some { startLine := some 5, startColumn := some 3 })

/-- The body declaration carrying the `Static` and `Final` modifiers. -/
def staticBodyDecl : CstNode :=
  .node
    [("modifier",
      [.node [("Static", [.token "static"])] none,
       .node [("Final", [.token "final"])] none]),
     ("classMemberDeclaration",
      [.node [("fieldDeclaration", [staticFieldDecl])] none])]
    none

/-- CST of a class whose only member is `static final String CONSTANT;`. -/
def staticClassCst : CstNode :=
  .node
    [("ordinaryCompilationUnit",
      [.node
        [("typeDeclaration",
          [.node
            [("classDeclaration",
              [.node
                [("normalClassDeclaration",
                  [.node
                    [("classBody",
                      [.node
                        [("classBodyDeclaration", [staticBodyDecl])]
                        none])]
                    none])]
                none])]
            none])]
        none])]
    none

/-! ### C1 -/

/-- C1: `filterFields` keeps, for the required-args kind, exactly the fields
with the not-null marker OR the final modifier, and for the all-args kind
every field unconditionally. -/
theorem filterFields_requiredArgs_or_allArgs (fields : List LombokFieldInfo)
    ( lombokAnnotation : LombokConstructorAnnotation) :
    ( lombokAnnotation.type = LombokConstructorType.REQUIRED_ARGS →
      LombokInjectionExtractor.filterFields fields lombokAnnotation =
        fields.filter fun field => field.hasNonNull || field.isFinal)
    ∧ ( lombokAnnotation.type = LombokConstructorType.ALL_ARGS →
      LombokInjectionExtractor.filterFields fields lombokAnnotation = fields) := by
  constructor
  · intro h
    simp [LombokInjectionExtractor.filterFields, h]
  · intro h
    simp [LombokInjectionExtractor.filterFields, h]

/-- C1 witness: on the spec's three fields, the required-args filter yields
exactly `{a, b}` and the all-args filter yields `{a, b, c}`. -/
theorem filterFields_requiredArgs_or_allArgs_witness :
    ( requiredArgsAnnotation.type = LombokConstructorType.REQUIRED_ARGS ∧
      LombokInjectionExtractor.filterFields [fieldA, fieldB, fieldC]
        requiredArgsAnnotation = [fieldA, fieldB])
    ∧ ( allArgsAnnotation.type = LombokConstructorType.ALL_ARGS ∧
      LombokInjectionExtractor.filterFields [fieldA, fieldB, fieldC]
        allArgsAnnotation = [fieldA, fieldB, fieldC]) := by
  refine ⟨⟨rfl, ?_⟩, ⟨rfl, ?_⟩⟩
  · rw [(filterFields_requiredArgs_or_allArgs [fieldA, fieldB, fieldC]
      requiredArgsAnnotation).1 rfl]
    decide
  · exact (filterFields_requiredArgs_or_allArgs [fieldA, fieldB, fieldC]
      allArgsAnnotation).2 rfl

/-! ### C7 -/

/-- C7: `convertToInjectionPoints` yields exactly one use-site per surviving
field, pairwise: mechanism is the synthesized (Lombok) constructor, requested
type is the field's type, the qualifier is the field's qualifier when present
and absent otherwise, the is-required flag is always true. -/
theorem convertToInjectionPoints_one_per_field (fields : List LombokFieldInfo) :
    List.Forall₂
      (fun (field : LombokFieldInfo) (p : BeanInjectionPoint) =>
        p.injectionType = InjectionType.LOMBOK_CONSTRUCTOR ∧
          p.beanType = field.type ∧
          p.qualifier = field.qualifier ∧
          p.isRequired = true ∧
          p.fieldName = some field.name ∧
          p.location = field.location)
      fields (LombokInjectionExtractor.convertToInjectionPoints fields) := by
  induction fields with
  | nil => exact List.Forall₂.nil
  | cons f fs ih => exact List.Forall₂.cons ⟨rfl, rfl, rfl, rfl, rfl, rfl⟩ ih

/-! ### C2 -/

/-- Inserting into a descending-by-score chain keeps it descending. -/
theorem chain_insertByScore (c : BeanCandidate) (l : List BeanCandidate)
    (h : List.Chain' (fun a b => b.matchScore ≤ a.matchScore) l) :
    List.Chain' (fun a b => b.matchScore ≤ a.matchScore)
      (BeanCandidate.insertByScore c l) := by
  induction l with
  | nil => simp [BeanCandidate.insertByScore]
  | cons y ys ih =>
    rw [BeanCandidate.insertByScore]
    by_cases hcy : c.matchScore < y.matchScore
    · rw [if_pos hcy]
      rw [List.chain'_cons']
      refine ⟨?_, ih h.tail⟩
      intro z hz
      cases ys with
      | nil =>
        simp [BeanCandidate.insertByScore] at hz
        subst hz
        exact Nat.le_of_lt hcy
      | cons w ws =>
        rw [BeanCandidate.insertByScore] at hz
        by_cases hcw : c.matchScore < w.matchScore
        · rw [if_pos hcw] at hz
          simp at hz
          subst hz
          exact (List.chain'_cons.mp h).1
        · rw [if_neg hcw] at hz
          simp at hz
          subst hz
          exact Nat.le_of_lt hcy
    · rw [if_neg hcy]
      rw [List.chain'_cons']
      refine ⟨?_, h⟩
      intro z hz
      simp at hz
      subst hz
      exact Nat.le_of_not_lt hcy

/-- The per-score slices of an insertion coincide with those of a `cons`:
every element the inserted candidate passes over has a strictly higher score,
hence lies in a different slice. -/
theorem filter_insertByScore (c : BeanCandidate) (l : List BeanCandidate)
    (s : Nat) :
    (BeanCandidate.insertByScore c l).filter (fun x => x.matchScore == s) =
      ((c :: l).filter (fun x => x.matchScore == s)) := by
  induction l with
  | nil => rfl
  | cons y ys ih =>
    rw [BeanCandidate.insertByScore]
    by_cases hcy : c.matchScore < y.matchScore
    · rw [if_pos hcy]
      by_cases hcs : c.matchScore = s
      · have hys : (y.matchScore == s) = false := by
          simp only [beq_eq_false_iff_ne]
          omega
        have hcb : (c.matchScore == s) = true := by
          simp only [beq_iff_eq]
          exact hcs
        simp [List.filter_cons, hys, hcb, ih]
      · have hcb : (c.matchScore == s) = false := by
          simp only [beq_eq_false_iff_ne]
          exact hcs
        simp [List.filter_cons, hcb, ih]
    · rw [if_neg hcy]

/-- C2 counterexample: two candidates of equal score 70 whose declared names
are "beanB" then "beanA" in input order come out of `sortByScore` still in
input order, not in ascending declared-name order. -/
theorem sortByScore_no_name_tiebreak_counterexample :
    candB.matchScore = candA.matchScore ∧
      (BeanCandidate.sortByScore [candB, candA]).map
          (fun c => c.beanDefinition.name) = ["beanB", "beanA"] ∧
      (BeanCandidate.sortByScore [candB, candA]).map
          (fun c => c.beanDefinition.name) ≠ ["beanA", "beanB"] := by
  refine ⟨rfl, rfl, ?_⟩
  decide

/-- C2 amended: the candidate list is ordered by descending numeric score with
the fixed scores (qualifier 100, explicit name 90, sole primary 80, type 70,
subtype 60); candidates of equal score keep their relative input order
(stable sort) — they are NOT reordered by declared name. -/
theorem sortByScore_descending_scores_stable :
    (getMatchScore .EXACT_QUALIFIER = 100 ∧ getMatchScore .EXACT_NAME = 90 ∧
      getMatchScore .PRIMARY_BEAN = 80 ∧ getMatchScore .TYPE_MATCH = 70 ∧
      getMatchScore .SUBTYPE_MATCH = 60) ∧
    (∀ candidates : List BeanCandidate,
      List.Chain' (fun a b => b.matchScore ≤ a.matchScore)
        (BeanCandidate.sortByScore candidates)) ∧
    (∀ (candidates : List BeanCandidate) (s : Nat),
      (BeanCandidate.sortByScore candidates).filter
          (fun c => c.matchScore == s) =
        candidates.filter (fun c => c.matchScore == s)) := by
  refine ⟨⟨rfl, rfl, rfl, rfl, rfl⟩, ?_, ?_⟩
  · intro candidates
    induction candidates with
    | nil => simp [BeanCandidate.sortByScore]
    | cons x xs ih =>
      rw [BeanCandidate.sortByScore, List.foldr_cons]
      exact chain_insertByScore x _ ih
  · intro candidates s
    induction candidates with
    | nil => rfl
    | cons x xs ih =>
      rw [BeanCandidate.sortByScore, List.foldr_cons]
      rw [filter_insertByScore]
      rw [List.filter_cons, List.filter_cons]
      rw [← BeanCandidate.sortByScore, ih]

/-! ### C3 -/

/-- C3: with an explicit qualifier set (a truthy, i.e. non-empty, string —
the program's notion of a present optional string, per the JS truthiness
guards of the src helpers) the resolution result is independent of the
explicit declared name (resolving with both set equals resolving with only
the qualifier set), the effective identifier exposed by the src helpers is the
qualifier, and a non-empty qualifier step terminates the cascade with exactly
its candidates. -/
theorem resolve_qualifier_beats_name (index : BeanIndexState)
    (useSite : BeanInjectionPoint) (q n : String)
    (hq : useSite.qualifier = some q) (hqt : q ≠ "")
    (_hn : useSite.beanName = some n) :
    resolve useSite index = resolve { useSite with beanName := none } index ∧
      BeanInjectionPoint.getEffectiveIdentifier useSite = some q ∧
      QualifierMatcher.getEffectiveQualifier useSite = some q ∧
      (qualifierCandidates index useSite ≠ [] →
        resolve useSite index =
          BeanCandidate.sortByScore (qualifierCandidates index useSite)) := by
  have hqb : (q == "") = false := beq_eq_false_iff_ne.mpr hqt
  refine ⟨?_, ?_, ?_, ?_⟩
  · simp [resolve, qualifierCandidates, hq, hqb, hqt]
  · simp [BeanInjectionPoint.getEffectiveIdentifier, hq, hqb, hqt]
  · simp [QualifierMatcher.getEffectiveQualifier, hq, hqb, hqt]
  · intro _
    simp [resolve, hq, hqb, hqt]

/-- C3 witness: a use-site with qualifier "payQ" and declared name "wechat"
resolves (against an index holding a "payQ"-qualified declaration and a
primary-marked declaration named "wechat") exactly as the qualifier-only
use-site does, and the qualifier step's non-empty candidate set is the
result. -/
theorem resolve_qualifier_beats_name_witness :
    bothSetUseSite.qualifier = some "payQ" ∧
      "payQ" ≠ "" ∧
      bothSetUseSite.beanName = some "wechat" ∧
      resolve bothSetUseSite payIndex =
        resolve { bothSetUseSite with beanName := none } payIndex ∧
      BeanInjectionPoint.getEffectiveIdentifier bothSetUseSite = some "payQ" ∧
      resolve bothSetUseSite payIndex =
        BeanCandidate.sortByScore (qualifierCandidates payIndex bothSetUseSite) := by
  have h := resolve_qualifier_beats_name payIndex bothSetUseSite "payQ" "wechat"
    rfl (by decide) rfl
  exact ⟨rfl, by decide, rfl, h.1, h.2.1, h.2.2.2 (by decide)⟩

/-! ### C4 -/

/-- C4: evaluating `createBeanDefinition` on a `@Bean` occurrence inside
`package com.example; class AppConfig` — the resulting declaration has
factory-method kind (`BEAN_METHOD`) yet its declared type is the enclosing
class's qualified name `com.example.AppConfig`; the method's return type is
never read (no navigation of `createBeanDefinition` touches a method
declaration), contradicting the claimed return-type rule. -/
theorem createBeanDefinition_beanMethod_uses_enclosing_type :
    (BeanMetadataExtractor.createBeanDefinition beanMethodAnnotation
        appConfigCst).map
        (fun d => (d.definitionType, d.type, d.name)) =
      some (BeanDefinitionType.BEAN_METHOD, "com.example.AppConfig",
        "appConfig") := by
  rfl

/-! ### C5 -/

/-- Appending entries that all satisfy `p` to a `!p`-filtered list and
`!p`-filtering again gives back the `!p`-filtered list. -/
theorem filter_not_append_of_all {α : Type} (A B : List α) (p : α → Bool)
    (h : ∀ x ∈ B, p x = true) :
    ((A.filter fun x => !p x) ++ B).filter (fun x => !p x) =
      A.filter fun x => !p x := by
  rw [List.filter_append]
  have h1 : (B.filter fun x => !p x) = [] := by
    rw [List.filter_eq_nil_iff]
    intro a ha
    simp [h a ha]
  have h2 : ((A.filter fun x => !p x).filter fun x => !p x) =
      A.filter fun x => !p x := by
    rw [List.filter_filter]
    apply List.filter_congr
    intro x _
    cases p x <;> rfl
  rw [h1, h2, List.append_nil]

/-- `p`-filtering a `!p`-filtered list with entries-all-`p` appended keeps
exactly the appended entries. -/
theorem filter_pos_append_of_all {α : Type} (A B : List α) (p : α → Bool)
    (h : ∀ x ∈ B, p x = true) :
    ((A.filter fun x => !p x) ++ B).filter p = B := by
  rw [List.filter_append]
  have h1 : (A.filter fun x => !p x).filter p = [] := by
    rw [List.filter_eq_nil_iff]
    intro a ha
    have := (List.mem_filter.mp ha).2
    simp at this
    simp [this]
  have h2 : B.filter p = B := List.filter_eq_self.mpr fun a ha => by
    simp [h a ha]
  rw [h1, h2, List.nil_append]

/-- C5: `addFile` replaces, never merges — applying extraction results `D1`
then `D2` for the same file leaves the index equal to applying `D2` alone
(zero residue from `D1`), and the per-file views report exactly `D2`'s
declarations and use-sites. -/
theorem addFile_replaces_previous (s : BeanIndexState) (f : String)
    (r1 r2 : BeanMetadataExtractor.ExtractionResult)
    (h1d : ∀ d ∈ r1.definitions, d.location.uri = f)
    (h1i : ∀ p ∈ r1.injectionPoints, p.location.uri = f)
    (h2d : ∀ d ∈ r2.definitions, d.location.uri = f)
    (h2i : ∀ p ∈ r2.injectionPoints, p.location.uri = f) :
    applyFileResult (applyFileResult s f r1) f r2 = applyFileResult s f r2 ∧
      (applyFileResult (applyFileResult s f r1) f r2).fileDefinitions f =
        r2.definitions ∧
      (applyFileResult (applyFileResult s f r1) f r2).useSitesOf f =
        r2.injectionPoints := by
  have hbd : ∀ d ∈ r1.definitions, (d.location.uri == f) = true := by
    intro d hd
    simp [h1d d hd]
  have hbi : ∀ p ∈ r1.injectionPoints, (p.location.uri == f) = true := by
    intro p hp
    simp [h1i p hp]
  have hbd2 : ∀ d ∈ r2.definitions, (d.location.uri == f) = true := by
    intro d hd
    simp [h2d d hd]
  have hbi2 : ∀ p ∈ r2.injectionPoints, (p.location.uri == f) = true := by
    intro p hp
    simp [h2i p hp]
  refine ⟨?_, ?_, ?_⟩
  · simp only [applyFileResult, BeanIndexState.removeFileEntries,
      BeanIndexState.addBeans, BeanIndexState.addInjections]
    rw [filter_not_append_of_all _ _ _ hbd, filter_not_append_of_all _ _ _ hbi]
  · simp only [applyFileResult, BeanIndexState.removeFileEntries,
      BeanIndexState.addBeans, BeanIndexState.addInjections,
      BeanIndexState.fileDefinitions]
    rw [filter_not_append_of_all _ _ _ hbd]
    exact filter_pos_append_of_all _ _ _ hbd2
  · simp only [applyFileResult, BeanIndexState.removeFileEntries,
      BeanIndexState.addBeans, BeanIndexState.addInjections,
      BeanIndexState.useSitesOf]
    rw [filter_not_append_of_all _ _ _ hbi]
    exact filter_pos_append_of_all _ _ _ hbi2

/-- C5 witness: re-indexing `/a/F.java` with `D1` then `D2` over an index
that also holds `/a/G.java` entries equals indexing `D2` alone, and the
per-file views report exactly `D2`. -/
theorem addFile_replaces_previous_witness :
    (∀ d ∈ resultD1.definitions, d.location.uri = "/a/F.java") ∧
      (∀ p ∈ resultD1.injectionPoints, p.location.uri = "/a/F.java") ∧
      (∀ d ∈ resultD2.definitions, d.location.uri = "/a/F.java") ∧
      (∀ p ∈ resultD2.injectionPoints, p.location.uri = "/a/F.java") ∧
      applyFileResult (applyFileResult stateBefore "/a/F.java" resultD1)
          "/a/F.java" resultD2 =
        applyFileResult stateBefore "/a/F.java" resultD2 ∧
      (applyFileResult (applyFileResult stateBefore "/a/F.java" resultD1)
            "/a/F.java" resultD2).fileDefinitions "/a/F.java" =
        resultD2.definitions ∧
      (applyFileResult (applyFileResult stateBefore "/a/F.java" resultD1)
            "/a/F.java" resultD2).useSitesOf "/a/F.java" =
        resultD2.injectionPoints := by
  have h := addFile_replaces_previous stateBefore "/a/F.java" resultD1 resultD2
    (by decide) (by decide) (by decide) (by decide)
  exact ⟨by decide, by decide, by decide, by decide, h.1, h.2.1, h.2.2⟩

/-! ### C6 -/

/-- The two onConstructor probes agree on the extracted value. -/
theorem extractOnConstructorValue_eq_withVariant (a : Annotation) :
    LombokAnnotationDetector.extractOnConstructorValue a =
      (LombokAnnotationDetector.extractOnConstructorValueWithVariant a).1 := by
  unfold LombokAnnotationDetector.extractOnConstructorValue
    LombokAnnotationDetector.extractOnConstructorValueWithVariant
  cases a.parameters.lookup "onConstructor" with
  | some v => rfl
  | none =>
    cases a.parameters.lookup "onConstructor_" with
    | some v => rfl
    | none =>
      cases a.parameters.lookup "onConstructor__" with
      | some v => rfl
      | none => rfl

/-- C6 counterexample: in the list `[@RequiredArgsConstructor (no
parameters), @AllArgsConstructor(onConstructor=@__({@Autowired}))]` SOME
occurrence (the second) is a recognized constructor-generating annotation
whose parameter map has `onConstructor` with a value containing `@Autowired`,
yet `detectConstructorInjection` returns absent — the claimed iff fails. -/
theorem detect_ignores_later_occurrence_counterexample :
    LombokAnnotationDetector.detectConstructorInjection
        [reqArgsNoParams, allArgsWithAutowired] = none ∧
      LombokAnnotationDetector.isLombokConstructorAnnotation
        allArgsWithAutowired = true ∧
      LombokAnnotationDetector.extractOnConstructorValue allArgsWithAutowired =
        some "@__({@Autowired})" ∧
      containsAutowired "@__({@Autowired})" = true := by
  refine ⟨rfl, rfl, rfl, ?_⟩
  decide

/-- C6 amended: `detect` yields a descriptor iff the FIRST recognized
constructor-generating annotation of the list (later occurrences are never
consulted) has one of the three onConstructor parameters with a non-empty raw
value that passes the case-insensitive whole-word `@Autowired` containment
test; in every other case it yields absent (the embedding is total, so no
input can make it throw). -/
theorem detect_descriptor_iff_first_occurrence (classAnnotations : List Annotation) :
    (LombokAnnotationDetector.detectConstructorInjection
        classAnnotations).isSome = true ↔
      ∃ a, classAnnotations.find?
          LombokAnnotationDetector.isLombokConstructorAnnotation = some a ∧
        ∃ v, LombokAnnotationDetector.extractOnConstructorValue a = some v ∧
          containsAutowired v = true := by
  unfold LombokAnnotationDetector.detectConstructorInjection
  cases hf : classAnnotations.find?
      LombokAnnotationDetector.isLombokConstructorAnnotation with
  | none => simp
  | some a =>
    have hv := extractOnConstructorValue_eq_withVariant a
    cases hx : LombokAnnotationDetector.extractOnConstructorValueWithVariant a with
    | mk val variant =>
      rw [hx] at hv
      cases val with
      | none => simp [hx, hv]
      | some v =>
        by_cases hemp : v = ""
        · subst hemp
          have hcz : containsAutowired "" = false := rfl
          simp [hx, hv, hcz]
        · by_cases hca : containsAutowired v = true
          · simp [hx, hv, hca, hemp]
          · simp [hx, hv, hemp, hca]

/-! ### C8 -/

/-- C8: `extractFieldInfo` does NOT skip static fields. On the class whose
only member is `static final String CONSTANT;` (its body declaration's
modifier list contains the `Static` keyword node), the walk still produces a
`FieldInfo` for that field — and, being final, it even survives the
required-args filter — contradicting the claimed non-static restriction. -/
theorem extractFieldInfo_keeps_static_field :
    ((getChildren staticBodyDecl "modifier").any
        fun m => (firstChild m "Static").isSome) = true ∧
      LombokInjectionExtractor.extractFieldInfo staticClassCst
          "/test/Consts.java" =
        [{ name := "CONSTANT", type := "String"
           location := { uri := "/test/Consts.java", line := 4, column := 2 }
           hasNonNull := false, isFinal := true, qualifier := none
           annotations := [] }] ∧
      LombokInjectionExtractor.filterFields
          (LombokInjectionExtractor.extractFieldInfo staticClassCst
            "/test/Consts.java") requiredArgsAnnotation =
        [{ name := "CONSTANT", type := "String"
           location := { uri := "/test/Consts.java", line := 4, column := 2 }
           hasNonNull := false, isFinal := true, qualifier := none
           annotations := [] }] := by
  refine ⟨rfl, ?_, ?_⟩ <;> rfl

/-! ### C9 -/

/-- C9: a file whose parser yields no tree contributes zero declarations and
zero use-sites — `extractFromFile` returns the empty result — and inside a
batch such a file amounts to removing its stale entries, after which the
remaining files are processed exactly as before (the batch never aborts). -/
theorem parse_unavailable_contributes_nothing :
    (∀ scanner : CstNode → List Annotation,
      BeanMetadataExtractor.extractFromFile scanner none =
        { definitions := [], injectionPoints := [] }) ∧
      (∀ (scanner : CstNode → List Annotation) (s : BeanIndexState)
        (f : String) (rest : List (String × Option CstNode)),
        buildIndexFrom scanner s ((f, none) :: rest) =
          buildIndexFrom scanner (removeFile s f) rest) := by
  refine ⟨fun scanner => rfl, ?_⟩
  intro scanner s f rest
  show buildIndexFrom scanner (updateFile scanner s f none) rest =
    buildIndexFrom scanner (removeFile s f) rest
  congr 1
  simp [updateFile, applyFileResult, BeanMetadataExtractor.extractFromFile,
    removeFile, BeanIndexState.addBeans, BeanIndexState.addInjections]

/-! ### C10 -/

/-- `find?` skips a prefix on which the predicate is everywhere false. -/
theorem find?_append_of_forall_false {α : Type} (l₁ l₂ : List α) (p : α → Bool)
    (h : ∀ x ∈ l₁, p x = false) : (l₁ ++ l₂).find? p = l₂.find? p := by
  induction l₁ with
  | nil => rfl
  | cons x xs ih =>
    rw [List.cons_append, List.find?_cons]
    rw [h x (List.mem_cons_self x xs)]
    exact ih fun y hy => h y (List.mem_cons_of_mem x hy)

/-- C10: `detectConstructorInjection` consults only the first recognized
constructor-generating annotation: if everything before `a` is unrecognized,
`a` is recognized, and `a`'s onConstructor value is missing or free of
`@Autowired`, the result is absent — whatever annotations follow. -/
theorem detect_uses_only_first_lombok_annotation (l₁ l₂ : List Annotation)
    (a : Annotation)
    (h1 : ∀ x ∈ l₁,
      LombokAnnotationDetector.isLombokConstructorAnnotation x = false)
    (h2 : LombokAnnotationDetector.isLombokConstructorAnnotation a = true)
    (h3 : ((LombokAnnotationDetector.extractOnConstructorValue a).all
        fun v => !containsAutowired v) = true) :
    LombokAnnotationDetector.detectConstructorInjection (l₁ ++ a :: l₂) =
      none := by
  unfold LombokAnnotationDetector.detectConstructorInjection
  rw [find?_append_of_forall_false l₁ (a :: l₂) _ h1]
  rw [List.find?_cons, h2]
  have hv := extractOnConstructorValue_eq_withVariant a
  cases hx : LombokAnnotationDetector.extractOnConstructorValueWithVariant a with
  | mk val variant =>
    rw [hx] at hv
    cases val with
    | none => simp [hx]
    | some v =>
      rw [hv] at h3
      simp only [Option.all_some] at h3
      by_cases hemp : v = ""
      · subst hemp
        simp [hx]
      · simp [hx, hemp]
        simpa using h3

/-- C10 witness: with `[@RequiredArgsConstructor]` (no parameters) first and
`[@AllArgsConstructor(onConstructor=@__({@Autowired}))]` after it, detection
is absent even though the later annotation satisfies every condition. -/
theorem detect_uses_only_first_lombok_annotation_witness :
    (∀ x ∈ ([] : List Annotation),
      LombokAnnotationDetector.isLombokConstructorAnnotation x = false) ∧
      LombokAnnotationDetector.isLombokConstructorAnnotation reqArgsNoParams =
        true ∧
      ((LombokAnnotationDetector.extractOnConstructorValue
          reqArgsNoParams).all fun v => !containsAutowired v) = true ∧
      LombokAnnotationDetector.detectConstructorInjection
          ([] ++ reqArgsNoParams :: [allArgsWithAutowired]) = none := by
  refine ⟨by simp, rfl, rfl, ?_⟩
  exact detect_uses_only_first_lombok_annotation [] [allArgsWithAutowired]
    reqArgsNoParams (by simp) rfl rfl
